import Mathlib

/-!
Shallow embedding of the Phishing-Detection front end.

Sources embedded:
- src/front-end/src/api.js : the getPrediction wrapper around axios.post;
- src/front-end/src/components/Search.jsx : the Search form (handleSubmit)
  and the Home orchestrator (loading, error, predictionDetail state and
  the async handlePrediction callback).

JavaScript values relevant to the flow are modelled by an inductive type;
the outcome of the single axios.post call is an external parameter
(fulfilled with a parsed response body, or rejected with an error message:
axios rejects on network failure and on non-2xx status, and on a 2xx
response with a malformed JSON body it yields the raw text as data).
-/

/-- A JavaScript value, as needed for the prediction flow: null, undefined,
strings, arrays, and objects given as field lists. -/
inductive JSValue where
  | null : JSValue
  | undef : JSValue
  | str : String → JSValue
  | arr : List JSValue → JSValue
  | obj : List (String × JSValue) → JSValue

/-- Property read v.k as JavaScript does on a non-nullish value: a present
object field gives its value, anything else gives undefined. -/
def jsField (v : JSValue) (k : String) : JSValue :=
  match v with
  | JSValue.obj fields => (fields.lookup k).getD JSValue.undef
  | _ => JSValue.undef

/-- The destructuring in Search.jsx reading prediction, info, url from the
value returned by getPrediction. Destructuring a null or undefined value
throws a TypeError, modelled as none; every other value destructures
normally, with absent properties read as undefined. -/
def destructurePIU (v : JSValue) : Option (JSValue × JSValue × JSValue) :=
  match v with
  | JSValue.null => none
  | JSValue.undef => none
  | _ => some (jsField v "prediction", jsField v "info", jsField v "url")

/-- An outbound HTTP request as issued by axios.post: method, target URL and
the JSON body given as a field list. -/
structure HttpRequest where
  method : String
  url : String
  body : List (String × JSValue)

/-- BASE_URL constant from api.js. -/
def BASE_URL : String := "https://phisher-back.onrender.com/api"

/-- Outcome of the one axios.post call made by getPrediction: the promise is
fulfilled with the parsed response body, or rejected with an error whose
message is recorded (network failure or non-2xx status). -/
inductive AxiosResult where
  | fulfilled : JSValue → AxiosResult
  | rejected : String → AxiosResult

/-- The request issued by the axios.post call in getPrediction for a given
input string: POST to BASE_URL/predict/ with JSON body containing the one
field url bound to the input. -/
def getPredictionCall (url : String) : HttpRequest :=
  { method := "POST", url := BASE_URL ++ "/predict/",
    body := [("url", JSValue.str url)] }

/-- Await of the axios.post promise: a fulfilled promise yields the response
value, a rejected one throws the error, modelled with Except. -/
def axiosPost (r : AxiosResult) : Except String JSValue :=
  match r with
  | AxiosResult.fulfilled data => Except.ok data
  | AxiosResult.rejected message => Except.error message

/-- getPrediction from api.js. On fulfilment it returns res.data unchanged.
On rejection the catch block returns the comma expression whose value is
err.message, a string: the function returns normally in both cases, and the
left operand of the comma (the literal starting with the word Error) is
discarded. Except.error would model an exception escaping the function;
no branch produces it. -/
def getPrediction (r : AxiosResult) : Except String JSValue :=
  match axiosPost r with
  | Except.ok res_data => Except.ok res_data
  | Except.error msg => Except.ok (JSValue.str msg)

/-- The requests issued by one run of getPrediction: exactly the single
axios.post call, made before the outcome is known. -/
def getPredictionRequests (url : String) : List HttpRequest :=
  [getPredictionCall url]

/-- The predictionDetail record of the Home component. -/
structure PredictionDetail where
  prediction : JSValue
  info : JSValue
  url : JSValue

/-- Initial value passed to useState for predictionDetail in Home. -/
def initialPredictionDetail : PredictionDetail :=
  { prediction := JSValue.null, info := JSValue.arr [], url := JSValue.null }

/-- The orchestrator state held by the Home component: the controlled input
searchTerm and the loading, error and predictionDetail pieces of state. -/
structure HomeState where
  searchTerm : String
  loading : Bool
  error : Bool
  predictionDetail : PredictionDetail

/-- The useState initial values in Home: empty input, loading and error
false, predictionDetail at its initial record. -/
def initialState : HomeState :=
  { searchTerm := "", loading := false, error := false,
    predictionDetail := initialPredictionDetail }

/-- The state visible once handlePrediction has run synchronously up to its
first await: for a non-empty argument the guard passes and setLoading true
has fired; for the empty string nothing happens. -/
def handlePredictionPending (s : HomeState) (searchUrl : String) : HomeState :=
  if searchUrl ≠ "" then { s with loading := true } else s

/-- A complete run of handlePrediction from Search.jsx for one submission
whose external call resolves as r: the guard on a non-empty argument, then
inside try the setLoading true, the await of getPrediction, the
destructuring of prediction, info, url and the setPredictionDetail; the
catch sets error true on any exception, and finally sets loading false.
Returns the final state paired with the list of requests issued. -/
def handlePredictionRun (s : HomeState) (searchUrl : String) (r : AxiosResult) :
    HomeState × List HttpRequest :=
  if searchUrl ≠ "" then
    match getPrediction r with
    | Except.ok v =>
      match destructurePIU v with
      | some piu =>
        ({ s with loading := false,
                  predictionDetail :=
                    { prediction := piu.1, info := piu.2.1, url := piu.2.2 } },
         getPredictionRequests searchUrl)
      | none =>
        ({ s with error := true, loading := false }, getPredictionRequests searchUrl)
    | Except.error _ =>
      ({ s with error := true, loading := false }, getPredictionRequests searchUrl)
  else (s, [])

/-- Final orchestrator state after one submission completes. -/
def handlePrediction (s : HomeState) (searchUrl : String) (r : AxiosResult) : HomeState :=
  (handlePredictionRun s searchUrl r).1

/-- The outbound requests issued by one submission. -/
def submissionRequests (s : HomeState) (searchUrl : String) (r : AxiosResult) :
    List HttpRequest :=
  (handlePredictionRun s searchUrl r).2

/-- Synchronous part of handleSubmit in Search.jsx: it calls
handlePrediction with the current searchTerm, which runs up to its first
await, and then calls setSearchTerm with the empty string, clearing the
input before any response arrives. -/
def handleSubmitSync (s : HomeState) : HomeState :=
  { handlePredictionPending s s.searchTerm with searchTerm := "" }

/-- States reachable by any sequence of submissions and request
completions, including the in-flight state of a pending request. -/
inductive Reachable : HomeState → Prop where
  | init : Reachable initialState
  | submit (s : HomeState) (u : String) :
      Reachable s → Reachable (handlePredictionPending s u)
  | complete (s : HomeState) (u : String) (r : AxiosResult) :
      Reachable s → Reachable (handlePrediction s u r)

/-- States reachable when every issued request has completed: only full
submission rounds are taken as steps. -/
inductive ReachableQuiescent : HomeState → Prop where
  | init : ReachableQuiescent initialState
  | complete (s : HomeState) (u : String) (r : AxiosResult) :
      ReachableQuiescent s → ReachableQuiescent (handlePrediction s u r)

/-- A reachable state with the error flag set: the response of the first
submission is a 2xx whose JSON body is null, so the destructuring in the
try block throws and the catch sets error true. -/
def errorState : HomeState :=
  handlePrediction initialState "http://x" (AxiosResult.fulfilled JSValue.null)

/-- A successful response body of the shape documented in the spec. -/
def successBody : JSValue :=
  JSValue.obj [("prediction", JSValue.str "phishing"),
               ("info", JSValue.arr [JSValue.str "reason1", JSValue.str "reason2"]),
               ("url", JSValue.str "http://x")]

/-- Helper: a completed submission with non-empty input always ends with
loading false, because the finally block runs on every path. -/
theorem handlePrediction_loading_false (s : HomeState) (u : String) (r : AxiosResult)
    (h : u ≠ "") : (handlePrediction s u r).loading = false := by
  unfold handlePrediction handlePredictionRun
  rw [if_pos h]
  split <;> try rfl
  split <;> rfl

/-- Helper: a submission with empty input leaves the state unchanged and
issues no request. -/
theorem handlePredictionRun_empty (s : HomeState) (r : AxiosResult) :
    handlePredictionRun s "" r = (s, []) := rfl

/-- Claim C1, evaluated at the failing input: from the initial state, a
submission of a non-empty URL whose external call is rejected (network
failure or non-2xx status) ends with error still false, loading false, and
the stored predictionDetail overwritten with an all-undefined record,
because getPrediction catches the rejection and returns the error message
string, which destructures without throwing. This contradicts the claim
that such a run ends with error true and the stored result unchanged. -/
theorem c1_rejected_call_bug :
    (handlePrediction initialState "http://x" (AxiosResult.rejected "Network Error")).error
      = false ∧
    (handlePrediction initialState "http://x" (AxiosResult.rejected "Network Error")).loading
      = false ∧
    (handlePrediction initialState "http://x" (AxiosResult.rejected "Network Error")).predictionDetail
      = { prediction := JSValue.undef, info := JSValue.undef, url := JSValue.undef } :=
  ⟨rfl, rfl, rfl⟩

/-- Claim C2, counterexample: a state with loading and error both true is
reachable. The first submission completes with a 2xx null body, setting
error true; a second submission then goes pending, setting loading true
while error is never cleared. -/
theorem c2_both_flags_reachable :
    Reachable (handlePredictionPending errorState "http://y") ∧
    (handlePredictionPending errorState "http://y").loading = true ∧
    (handlePredictionPending errorState "http://y").error = true :=
  ⟨Reachable.submit errorState "http://y"
      (Reachable.complete initialState "http://x"
        (AxiosResult.fulfilled JSValue.null) Reachable.init),
    rfl, rfl⟩

/-- Claim C2 as amended: in every reachable state in which all issued
requests have completed, loading is false, hence loading and error are
never both true; the two flags can only coincide while a request started
from a failed state is still in flight. -/
theorem c2_quiescent_not_both (s : HomeState) (h : ReachableQuiescent s) :
    ¬ (s.loading = true ∧ s.error = true) := by
  induction h with
  | init => simp [initialState]
  | complete s u r _ ih =>
    by_cases hu : u = ""
    · subst hu
      simpa [handlePrediction, handlePredictionRun_empty] using ih
    · rintro ⟨hl, _⟩
      rw [handlePrediction_loading_false s u r hu] at hl
      exact Bool.false_ne_true hl

/-- Witness for the amended C2 at the initial state. -/
theorem c2_quiescent_not_both_witness :
    ¬ (initialState.loading = true ∧ initialState.error = true) :=
  c2_quiescent_not_both initialState ReachableQuiescent.init

/-- Claim C3: for the empty input string the guard in handlePrediction
fails, so a submission performs no state transition at all (loading, error
and the stored result unchanged) and issues no outbound request. -/
theorem c3_empty_submission_noop (s : HomeState) (r : AxiosResult) :
    handlePrediction s "" r = s ∧ submissionRequests s "" r = [] :=
  ⟨rfl, rfl⟩

/-- Claim C4: for every state with a non-empty input, the synchronous part
of submitting the form leaves loading true (pending state is entered before
the external call is awaited) and the input field cleared to the empty
string. -/
theorem c4_submit_pending_and_clears (s : HomeState) (h : s.searchTerm ≠ "") :
    (handleSubmitSync s).loading = true ∧ (handleSubmitSync s).searchTerm = "" := by
  constructor
  · simp [handleSubmitSync, handlePredictionPending, h]
  · rfl

/-- Witness for C4 at a concrete state holding a non-empty URL. -/
theorem c4_submit_pending_and_clears_witness :
    (handleSubmitSync { initialState with searchTerm := "http://x" }).loading = true ∧
    (handleSubmitSync { initialState with searchTerm := "http://x" }).searchTerm = "" :=
  c4_submit_pending_and_clears { initialState with searchTerm := "http://x" } (by decide)

/-- Claim C5, counterexample: a submission whose external call succeeds with
a well-formed response body does not end with error false when the previous
submission had set the error flag, because no code path ever writes error
false. The starting state is reachable (first submission answered by a 2xx
null body). -/
theorem c5_error_not_cleared :
    Reachable errorState ∧
    (handlePrediction errorState "http://x" (AxiosResult.fulfilled successBody)).error
      = true :=
  ⟨Reachable.complete initialState "http://x"
      (AxiosResult.fulfilled JSValue.null) Reachable.init, rfl⟩

/-- Claim C5 as amended: a submission whose call succeeds with a body
holding fields prediction, info and url ends with loading false, the stored
predictionDetail replaced wholesale by exactly that record, and the error
flag unchanged from before the submission (in particular false whenever it
was false); the claim as stated had error false unconditionally. -/
theorem c5_success_replaces_result (s : HomeState) (su : String) (p i u : JSValue)
    (h : su ≠ "") :
    handlePrediction s su
        (AxiosResult.fulfilled
          (JSValue.obj [("prediction", p), ("info", i), ("url", u)])) =
      { s with loading := false,
               predictionDetail := { prediction := p, info := i, url := u } } := by
  unfold handlePrediction handlePredictionRun
  rw [if_pos h]
  rfl

/-- Witness for the amended C5 at the spec example response. -/
theorem c5_success_replaces_result_witness :
    handlePrediction initialState "http://x"
        (AxiosResult.fulfilled
          (JSValue.obj [("prediction", JSValue.str "phishing"),
            ("info", JSValue.arr [JSValue.str "reason1", JSValue.str "reason2"]),
            ("url", JSValue.str "http://x")])) =
      { initialState with
          loading := false,
          predictionDetail :=
            { prediction := JSValue.str "phishing",
              info := JSValue.arr [JSValue.str "reason1", JSValue.str "reason2"],
              url := JSValue.str "http://x" } } :=
  c5_success_replaces_result initialState "http://x" (JSValue.str "phishing")
    (JSValue.arr [JSValue.str "reason1", JSValue.str "reason2"])
    (JSValue.str "http://x") (by decide)

/-- Claim C6: for every input string, getPrediction issues exactly the one
POST request to BASE_URL/predict/ carrying the JSON body with the single
field url bound to the input, and on fulfilment its value is the response
body unchanged (the record with fields prediction, info and url that the
back end returns). -/
theorem c6_request_shape_and_success_value (s : String) :
    getPredictionRequests s =
      [{ method := "POST", url := "https://phisher-back.onrender.com/api/predict/",
         body := [("url", JSValue.str s)] }] ∧
    (∀ d : JSValue, getPrediction (AxiosResult.fulfilled d) = Except.ok d) :=
  ⟨rfl, fun _ => rfl⟩

/-- Claim C7: submitting the same non-empty URL twice sequentially, the
second submission starting from the completed state of the first and the
external call resolving the same way both times, ends both submissions in
the same final state. -/
theorem c7_sequential_resubmit_idempotent (s : HomeState) (u : String) (r : AxiosResult)
    (h : u ≠ "") :
    handlePrediction (handlePrediction s u r) u r = handlePrediction s u r := by
  unfold handlePrediction handlePredictionRun
  simp only [if_pos h]
  cases r with
  | rejected m => rfl
  | fulfilled d => cases d <;> rfl

/-- Witness for C7 at a concrete URL and outcome. -/
theorem c7_sequential_resubmit_idempotent_witness :
    handlePrediction
        (handlePrediction initialState "http://x" (AxiosResult.fulfilled successBody))
        "http://x" (AxiosResult.fulfilled successBody) =
      handlePrediction initialState "http://x" (AxiosResult.fulfilled successBody) :=
  c7_sequential_resubmit_idempotent initialState "http://x"
    (AxiosResult.fulfilled successBody) (by decide)

/-- Claim C8: a submission with non-empty input issues exactly one outbound
request, and a submission with empty input issues none. -/
theorem c8_request_counts (s : HomeState) (u : String) (r : AxiosResult) :
    (u ≠ "" → (submissionRequests s u r).length = 1) ∧
    (u = "" → submissionRequests s u r = []) := by
  constructor
  · intro h
    unfold submissionRequests handlePredictionRun
    rw [if_pos h]
    split <;> try rfl
    split <;> rfl
  · intro h
    subst h
    rfl

/-- Witness for C8 at a non-empty and at an empty input. -/
theorem c8_request_counts_witness :
    (submissionRequests initialState "http://x" (AxiosResult.rejected "boom")).length = 1 ∧
    submissionRequests initialState "" (AxiosResult.rejected "boom") = [] :=
  ⟨(c8_request_counts initialState "http://x" (AxiosResult.rejected "boom")).1 (by decide),
   (c8_request_counts initialState "" (AxiosResult.rejected "boom")).2 rfl⟩

/-- Claim C9, counterexample: the catch branch of handlePrediction is not
unreachable. getPrediction does return normally on a 2xx response whose
JSON body is null, but destructuring that null value throws, so the catch
runs and sets error true. -/
theorem c9_catch_branch_reachable :
    getPrediction (AxiosResult.fulfilled JSValue.null) = Except.ok JSValue.null ∧
    destructurePIU JSValue.null = none ∧
    (handlePrediction initialState "http://x" (AxiosResult.fulfilled JSValue.null)).error
      = true :=
  ⟨rfl, rfl, rfl⟩

/-- Claim C9 as amended: getPrediction never rejects or throws (for every
outcome of the HTTP call it returns normally, on failure returning the
error message string via the comma expression), so a rejected HTTP call
never reaches the catch branch of handlePrediction: such a submission
leaves error unchanged and stores an all-undefined record. The catch branch
stays reachable only through a fulfilled body that is null or undefined. -/
theorem c9_never_rejects :
    (∀ r : AxiosResult, ∃ v : JSValue, getPrediction r = Except.ok v) ∧
    (∀ (s : HomeState) (u m : String), u ≠ "" →
      (handlePrediction s u (AxiosResult.rejected m)).error = s.error ∧
      (handlePrediction s u (AxiosResult.rejected m)).predictionDetail =
        { prediction := JSValue.undef, info := JSValue.undef, url := JSValue.undef }) := by
  constructor
  · intro r
    cases r with
    | fulfilled d => exact ⟨d, rfl⟩
    | rejected m => exact ⟨JSValue.str m, rfl⟩
  · intro s u m h
    unfold handlePrediction handlePredictionRun
    rw [if_pos h]
    exact ⟨rfl, rfl⟩

/-- Witness for the amended C9 at a concrete rejection. -/
theorem c9_never_rejects_witness :
    (∃ v : JSValue, getPrediction (AxiosResult.rejected "boom") = Except.ok v) ∧
    (handlePrediction initialState "http://x" (AxiosResult.rejected "boom")).error
      = initialState.error :=
  ⟨c9_never_rejects.1 (AxiosResult.rejected "boom"),
   (c9_never_rejects.2 initialState "http://x" "boom" (by decide)).1⟩

/-- Claim C10: once the error flag is true it stays true: no operation
writes error false, so from any error state both the completed run of any
subsequent submission (successful or not) and its in-flight pending state
still carry error true. -/
theorem c10_error_flag_sticky (s : HomeState) (u : String) (r : AxiosResult)
    (h : s.error = true) :
    (handlePrediction s u r).error = true ∧
    (handlePredictionPending s u).error = true := by
  constructor
  · unfold handlePrediction handlePredictionRun
    rcases eq_or_ne u "" with hu | hu
    · rw [if_neg (by simp [hu])]
      exact h
    · rw [if_pos hu]
      cases r with
      | rejected m => exact h
      | fulfilled d => cases d <;> first | exact h | rfl
  · unfold handlePredictionPending
    split <;> exact h

/-- Witness for C10 at the reachable error state, with a succeeding
subsequent submission. -/
theorem c10_error_flag_sticky_witness :
    (handlePrediction errorState "http://y" (AxiosResult.fulfilled successBody)).error
      = true ∧
    (handlePredictionPending errorState "http://y").error = true :=
  c10_error_flag_sticky errorState "http://y" (AxiosResult.fulfilled successBody) rfl
